import Mathlib

/-!
Shallow embedding of the Agnideva-Rover control centre (src/app.py).

The embedding covers the protocol/mode/failsafe core of the application:
`SerialThread.send`, `VoiceThread.run` (the per-transcript dispatch step),
and the `AgnidevaControlCentre` methods `handle_serial_data`, `switch_mode`,
`toggle_voice`, `start_key_listener` (its `on_press` / `on_release`
callbacks), `send_key_command` and `update_status`.  GUI widgets, logging
text and timestamps are presentation and are not part of the state; the
fields that the spec treats as session state (`current_mode`,
`last_cmd_time`, `active_keys`, voice-thread liveness, the serial handle)
are modelled explicitly.  Characters written to the serial port are
collected in an explicit write list.
-/

/-! ### Python string primitives used by app.py -/

/-- `pat.isPrefixList s`: `pat` is a prefix of `s` (on character lists). -/
def isPrefixList : List Char → List Char → Bool
  | [], _ => true
  | _ :: _, [] => false
  | p :: ps, c :: cs => p == c && isPrefixList ps cs

/-- Helper for Python's substring test `pat in s`. -/
def containsSubAux (pat : List Char) : List Char → Bool
  | [] => isPrefixList pat []
  | c :: rest => isPrefixList pat (c :: rest) || containsSubAux pat rest

/-- Python's substring containment `pat in s` on strings. -/
def containsSub (pat s : String) : Bool :=
  containsSubAux pat.data s.data

/-- Python's `s.startswith(pat)`. -/
def pyStartsWith (s pat : String) : Bool :=
  isPrefixList pat.data s.data

/-- Whitespace characters stripped by Python's `str.strip()` (ASCII range,
which is all that occurs in the protocol lines). -/
def pyIsSpace (ch : Char) : Bool :=
  ch == ' ' || ch == '\t' || ch == '\n' || ch == '\r' || ch == '\x0b' || ch == '\x0c'

/-- Python's `s.strip()`. -/
def pyStrip (s : String) : String :=
  String.mk (((s.data.dropWhile pyIsSpace).reverse.dropWhile pyIsSpace).reverse)

/-- Helper for `s.split(':')`: accumulate characters until a colon. -/
def splitColonAux : List Char → List Char → List (List Char)
  | [], acc => [acc.reverse]
  | ch :: rest, acc =>
    if ch == ':' then acc.reverse :: splitColonAux rest []
    else splitColonAux rest (ch :: acc)

/-- Python's `s.split(':')`. -/
def pySplitColon (s : String) : List String :=
  (splitColonAux s.data []).map (fun cs => String.mk cs)

/-- Digit-string accumulator for Python's `int(...)`. -/
def digitsToNatAux : List Char → Nat → Option Nat
  | [], acc => some acc
  | ch :: rest, acc =>
    if ch.isDigit then digitsToNatAux rest (acc * 10 + (ch.toNat - '0'.toNat))
    else none

/-- Python's `int(s)` on a decimal string: optional surrounding whitespace,
optional sign, then digits; anything else raises `ValueError` (`none`). -/
def pyIntParse (s : String) : Option Int :=
  match (pyStrip s).data with
  | [] => none
  | '-' :: rest =>
    if rest.isEmpty then none
    else (digitsToNatAux rest 0).map (fun n => -(n : Int))
  | '+' :: rest =>
    if rest.isEmpty then none
    else (digitsToNatAux rest 0).map (fun n => (n : Int))
  | cs => (digitsToNatAux cs 0).map (fun n => (n : Int))

/-- Python's `int(x)` on a real number truncates toward zero. -/
def pyTrunc (q : ℚ) : ℤ :=
  if q < 0 then ⌈q⌉ else ⌊q⌋

/-! ### SerialThread (src/app.py lines 17-62) -/

/-- State of `SerialThread`'s underlying handle: whether `self.ser` is set,
whether `self.ser.is_open`, and whether `self.ser.write` raises. -/
structure SerialState where
  ser_some : Bool
  ser_open : Bool
  write_fails : Bool
deriving DecidableEq, Repr

/-- Outcome of `SerialThread.send`: the returned boolean, the characters
actually written to the port, and whether `error_occurred` was emitted. -/
structure SendResult where
  ok : Bool
  writes : List String
  error_reported : Bool
deriving DecidableEq, Repr

/-- `SerialThread.send(command)` (lines 44-52): writes only when
`self.ser and self.ser.is_open`; a write exception is caught, reported via
`error_occurred`, and turned into a `False` return. -/
def SerialThread_send (st : SerialState) (command : String) : SendResult :=
  if st.ser_some && st.ser_open then
    if st.write_fails then ⟨false, [], true⟩
    else ⟨true, [command], false⟩
  else ⟨false, [], false⟩

/-! ### Input arbiter (`send_key_command`, lines 592-601) -/

/-- The loop `for p_cmd in priority_cmds: if p_cmd in self.active_keys: cmd
= p_cmd; break` with `cmd` initialised to `'S'`. -/
def effective_command_loop : List Char → List Char → Char
  | [], _ => 'S'
  | p :: rest, keys => if keys.contains p then p else effective_command_loop rest keys

/-- The effective command computed by `send_key_command` from the held-key
set, with `priority_cmds = ['F', 'B', 'L', 'R', 'P']`. -/
def effective_command (keys : List Char) : Char :=
  effective_command_loop ['F', 'B', 'L', 'R', 'P'] keys

/-- The spec's wording of the arbiter (§4.4 / §8): the first member present
in the fixed order Forward > Backward > Left > Right > Pump, else Stop. -/
def effective_command_spec (keys : List Char) : Char :=
  if keys.contains 'F' then 'F'
  else if keys.contains 'B' then 'B'
  else if keys.contains 'L' then 'L'
  else if keys.contains 'R' then 'R'
  else if keys.contains 'P' then 'P'
  else 'S'

/-! ### Control-centre session state (`AgnidevaControlCentre`) -/

/-- The session state of `AgnidevaControlCentre` relevant to the protocol
core: `self.serial_thread` (with its handle state), `self.current_mode`
(a Python string, initially `'N'`), `self.last_cmd_time` (seconds; modelled
as `Nat`), `self.active_keys` (a set of command characters, modelled as a
duplicate-free list), whether `self.voice_thread` is set and running, and
the telemetry display values (`soil_bar` value, its moisture tooltip, the
distance label). -/
structure Centre where
  serial_thread : Option SerialState
  current_mode : String
  last_cmd_time : Nat
  active_keys : List Char
  voice_running : Bool
  soil_value : Int
  moisture_tooltip : Int
  dist_text : String
deriving DecidableEq, Repr

/-- Python `set.add`: no duplicate is inserted. -/
def setAdd (keys : List Char) (c : Char) : List Char :=
  if keys.contains c then keys else c :: keys

/-- `disconnect_serial` (lines 447-469) restricted to the modelled fields:
the serial thread is closed and dropped and the voice thread is cleaned up.
`current_mode` is NOT reset (only the `mode_label` display text becomes
`'None'`). -/
def disconnect_serial (c : Centre) : Centre :=
  { c with serial_thread := none, voice_running := false }

/-- `show_error` (lines 388-393): logs, shows a dialog, and forces
`disconnect_serial`. -/
def show_error (c : Centre) : Centre :=
  disconnect_serial c

/-- A send through `self.serial_thread` guarded by a `None` check, as in
`switch_mode`'s `if self.serial_thread and self.serial_thread.send(mode)`:
returns the boolean result and the characters written. -/
def centre_send (c : Centre) (cmd : String) : Bool × List String :=
  match c.serial_thread with
  | some st => let r := SerialThread_send st cmd; (r.ok, r.writes)
  | none => (false, [])

/-- `send_key_command` (lines 592-601): recompute the effective command
from `active_keys` and send it unconditionally.  The method has no guard
and no change-detection; the session state is unchanged (only a log line
is appended on success).  When `self.serial_thread` is `None` the attribute
access raises and is swallowed by the caller's bare `except` with no state
effect beyond what already happened. -/
def send_key_command (c : Centre) : Centre × List String :=
  match c.serial_thread with
  | some st => (c, (SerialThread_send st (String.singleton (effective_command c.active_keys))).writes)
  | none => (c, [])

/-! ### Key listener (`start_key_listener`, lines 551-590) -/

/-- A key event as delivered by pynput: the special keys the handler tests
for, a character key, or any other key (including keys whose `char`
attribute is absent, where the handler's attribute access raises and is
swallowed by the bare `except`). -/
inductive Key
  | up
  | down
  | left
  | right
  | space
  | char (ch : Char)
  | other
deriving DecidableEq, Repr

/-- The command character computed by the identical `if`/`elif` chains of
`on_press` and `on_release`: arrows/space map directly, character keys map
via `key.char.lower()` over w/s/a/d; `none` models `cmd = ''`. -/
def key_to_cmd : Key → Option Char
  | .up => some 'F'
  | .down => some 'B'
  | .left => some 'L'
  | .right => some 'R'
  | .space => some 'P'
  | .char ch =>
    if ch.toLower == 'w' then some 'F'
    else if ch.toLower == 's' then some 'B'
    else if ch.toLower == 'a' then some 'L'
    else if ch.toLower == 'd' then some 'R'
    else none
  | .other => none

/-- `on_press` (lines 553-568): return immediately when
`self.current_mode != 'N' or not self.serial_thread`; otherwise, when the
key maps to a command, add it to `active_keys` and call
`send_key_command` unconditionally. -/
def on_press (c : Centre) (k : Key) : Centre × List String :=
  if c.current_mode ≠ "N" ∨ c.serial_thread = none then (c, [])
  else
    match key_to_cmd k with
    | some cmd => send_key_command { c with active_keys := setAdd c.active_keys cmd }
    | none => (c, [])

/-- `on_release` (lines 570-585): same gate; when the key maps to a command
currently in `active_keys`, remove it and call `send_key_command`. -/
def on_release (c : Centre) (k : Key) : Centre × List String :=
  if c.current_mode ≠ "N" ∨ c.serial_thread = none then (c, [])
  else
    match key_to_cmd k with
    | some cmd =>
      if c.active_keys.contains cmd then
        send_key_command { c with active_keys := c.active_keys.erase cmd }
      else (c, [])
    | none => (c, [])

/-! ### Telemetry parsing (`handle_serial_data`, lines 471-504) -/

/-- The typed telemetry event decoded from one line, mirroring the branches
of `handle_serial_data`.  The `soil` payload is `none` when `int(...)`
raises (the "Invalid soil data" branch). -/
inductive TelemetryEvent
  | errorNotice (msg : String)
  | modeAck (value : String)
  | soil (parsed : Option Int)
  | dist (text : String)
  | connected
  | raw (text : String)
deriving DecidableEq, Repr

/-- The `data.split(':')[1]` payload of a line known to contain a colon. -/
def colonPayload (data : String) : String :=
  (pySplitColon data).getD 1 ""

/-- The branch structure of `handle_serial_data` as a pure classifier:
`'Error' in data` is tested first and returns; then `'Mode:' in data`
(substring); then `data.startswith('Soil:')`; then
`data.startswith('Dist:')`; then the exact text `"Connected to Arduino"`;
anything else is a raw received line. -/
def classify (data : String) : TelemetryEvent :=
  if containsSub "Error" data then .errorNotice data
  else if containsSub "Mode:" data then .modeAck (pyStrip (colonPayload data))
  else if pyStartsWith data "Soil:" then .soil (pyIntParse (colonPayload data))
  else if pyStartsWith data "Dist:" then .dist (pyStrip (colonPayload data))
  else if data == "Connected to Arduino" then .connected
  else .raw data

/-- `moisture_percent = int((1023 - soil) / 1023 * 100)` (line 487), with
Python's real division and truncating `int(...)`. -/
def moisture_percent (soil : Int) : Int :=
  pyTrunc ((1023 - (soil : ℚ)) / 1023 * 100)

/-- The state effect of `handle_serial_data` on the modelled fields.
An error line goes through `show_error` (which tears the session down);
a mode ack overwrites `current_mode` with the parsed value, whatever it is;
a parseable soil line updates the soil display and its moisture tooltip;
a distance line updates the distance label; everything else only logs. -/
def handle_serial_data (c : Centre) (data : String) : Centre :=
  match classify data with
  | .errorNotice _ => show_error c
  | .modeAck v => { c with current_mode := v }
  | .soil (some v) => { c with soil_value := v, moisture_tooltip := moisture_percent v }
  | .soil none => c
  | .dist t => { c with dist_text := t ++ " cm" }
  | .connected => c
  | .raw _ => c

/-! ### Mode switching and voice control (lines 506-549) -/

/-- `switch_mode(mode)` (lines 506-522): when
`self.serial_thread and self.serial_thread.send(mode)` succeeds,
`self.current_mode = mode` is assigned immediately (no acknowledgement is
awaited).  When the new mode is `'N'` and a voice thread is running,
`toggle_voice()`'s stop branch runs: it clears the voice thread and then
re-enters `switch_mode('N')` (the re-entry cannot recurse again because the
voice thread is already cleared); that single level of re-entry is inlined
here. -/
def switch_mode (c : Centre) (mode : String) : Centre × List String :=
  match centre_send c mode with
  | (false, w) => (c, w)
  | (true, w) =>
    let c1 := { c with current_mode := mode }
    if mode == "N" && c1.voice_running then
      let c2 := { c1 with voice_running := false }
      match centre_send c2 mode with
      | (false, w2) => (c2, w ++ w2)
      | (true, w2) => ({ c2 with current_mode := mode }, w ++ w2)
    else (c1, w)

/-- `toggle_voice` (lines 524-549).  Stop branch: clean up the voice thread
and call `switch_mode('N')`.  Start branch: `self.serial_thread.send('V')`
(unguarded: a `None` serial thread raises, is caught, and forces teardown
via `show_error`); on a successful send the voice thread is created and
started.  Note the start branch never assigns `current_mode`. -/
def toggle_voice (c : Centre) : Centre × List String :=
  if c.voice_running then
    switch_mode { c with voice_running := false } "N"
  else
    match c.serial_thread with
    | none => (show_error c, [])
    | some st =>
      let r := SerialThread_send st "V"
      if r.ok then ({ c with voice_running := true }, r.writes)
      else (c, r.writes)

/-! ### Voice dispatch (`VoiceThread.run`, lines 77-115) -/

/-- The recognized-word table `command_map` in `VoiceThread.run`, in the
dictionary's insertion order (the loop takes the first key contained in the
transcript). -/
def voice_command_map : List (String × Char) :=
  [("forward", 'F'), ("backward", 'B'), ("back", 'B'), ("left", 'L'),
   ("right", 'R'), ("spray", 'P'), ("stop", 'S')]

/-- The command derived from one lowercase transcript: the first map key
that is a substring of the text, if any. -/
def voice_cmd_of (text : String) : Option Char :=
  (voice_command_map.find? (fun kv => containsSub kv.1 text)).map (fun kv => kv.2)

/-- One iteration of `VoiceThread.run` for a recognized transcript: when a
command word matches, `self.serial_thread.send(cmd)` is called directly —
the loop never consults the centre's mode.  Returns the characters
written. -/
def VoiceThread_step (st : SerialState) (text : String) : List String :=
  match voice_cmd_of text with
  | some cmd => (SerialThread_send st (String.singleton cmd)).writes
  | none => []

/-- Voice dispatch at the session level: commands flow to the transport
whenever the voice thread is running; `VoiceThread_step` takes no mode
input because `VoiceThread.run` has no mode check. -/
def voice_dispatch (c : Centre) (text : String) : List String :=
  if c.voice_running then
    match c.serial_thread with
    | some st => VoiceThread_step st text
    | none => []
  else []

/-! ### Failsafe ticker (`update_status`, lines 603-614) -/

/-- `update_status` runs on the 1-second `QTimer` (line 322).  With no
serial thread it only resets the distance label.  Otherwise it sends the
distance poll `'D'` when `current_mode in ['A', 'N', 'V']`, and then, when
`time.time() - self.last_cmd_time > 5`, sends `'S'` and sets
`self.last_cmd_time` to the current time.  `last_cmd_time` is assigned
nowhere else in the program except its initialisation to 0 (line 131); in
particular `SerialThread.send` does not touch it.  Time is modelled in
whole seconds.  Returns the new state and the characters written. -/
def update_status (now : Nat) (c : Centre) : Centre × List String :=
  match c.serial_thread with
  | none => ({ c with dist_text := "-- cm" }, [])
  | some st =>
    let w1 := if ["A", "N", "V"].contains c.current_mode then (SerialThread_send st "D").writes else []
    if now - c.last_cmd_time > 5 then
      ({ c with last_cmd_time := now }, w1 ++ (SerialThread_send st "S").writes)
    else (c, w1)

/-! ### Concrete session states and helper lemmas -/

/-- A session state with the given serial handle, mode, failsafe timestamp,
held-key set and voice-thread flag, and quiescent telemetry displays. -/
def mkCentre (ser : Option SerialState) (mode : String) (t : Nat)
    (keys : List Char) (v : Bool) : Centre :=
  { serial_thread := ser, current_mode := mode, last_cmd_time := t,
    active_keys := keys, voice_running := v,
    soil_value := 0, moisture_tooltip := 0, dist_text := "" }

/-- On the soil sensor's domain, the truncating `int(...)` of line 487 is
the floor of the exact rational, which is natural-number division. -/
theorem moisture_percent_natCast (s : Nat) (h : s ≤ 1023) :
    moisture_percent (s : Int) = (((1023 - s) * 100) / 1023 : Nat) := by
  unfold moisture_percent pyTrunc
  have h0 : ((1023 : ℚ) - ((s : Int) : ℚ)) / 1023 * 100
      = (((1023 - s) * 100 : Nat) : ℚ) / ((1023 : Nat) : ℚ) := by
    push_cast [Nat.cast_sub h]
    ring
  rw [h0]
  have hnn : (0 : ℚ) ≤ (((1023 - s) * 100 : Nat) : ℚ) / ((1023 : Nat) : ℚ) := by
    positivity
  rw [if_neg (not_lt.mpr hnn)]
  rw [← Int.natCast_floor_eq_floor hnn, Nat.floor_div_eq_div]

/-- The moisture percentage displayed for the raw soil value 512. -/
theorem moisture_percent_512 : moisture_percent 512 = 49 := by
  have h := moisture_percent_natCast 512 (by norm_num)
  norm_num at h
  exact h

/-! ### Claim theorems -/

/-- Claim C1, counterexample.  The claim asserts that a real command send
resets the staleness timer.  In the code only `update_status` itself writes
`last_cmd_time`: here the failsafe last fired at t = 6, a real key command
`F` is sent at t = 8 and leaves the state (in particular `last_cmd_time`)
untouched, and the tick at t = 12 — only 4 seconds after that real
command — emits Stop again, which the claim forbids. -/
theorem update_status_failsafe_cex :
    (send_key_command (mkCentre (some ⟨true, true, false⟩) "N" 6 ['F'] false)).2 = ["F"] ∧
    (send_key_command (mkCentre (some ⟨true, true, false⟩) "N" 6 ['F'] false)).1
      = mkCentre (some ⟨true, true, false⟩) "N" 6 ['F'] false ∧
    "S" ∈ (update_status 12 (mkCentre (some ⟨true, true, false⟩) "N" 6 ['F'] false)).2 ∧
    12 - 8 ≤ 5 := by decide

/-- Claim C1, amended.  On a connected session, a tick more than 5 seconds
after `last_cmd_time` emits Stop exactly once and resets `last_cmd_time` to
the tick time; a tick within 5 seconds of `last_cmd_time` changes nothing
and emits no Stop; but sending a real command does not reset the staleness
timer (the state, including `last_cmd_time`, is unchanged), so the failsafe
Stop recurs whenever 5 seconds pass since the last failsafe Stop,
regardless of intervening real commands. -/
theorem update_status_failsafe_window :
    (∀ (now : Nat) (c : Centre) (st : SerialState), c.serial_thread = some st →
      st.ser_some = true → st.ser_open = true → st.write_fails = false →
      now - c.last_cmd_time > 5 →
      (update_status now c).1.last_cmd_time = now ∧
      (update_status now c).2.count "S" = 1) ∧
    (∀ (now : Nat) (c : Centre) (st : SerialState), c.serial_thread = some st →
      now - c.last_cmd_time ≤ 5 →
      (update_status now c).1 = c ∧ "S" ∉ (update_status now c).2) ∧
    (∀ c : Centre, (send_key_command c).1 = c) := by
  refine ⟨?_, ?_, ?_⟩
  · intro now c st hst h1 h2 h3 h5
    simp only [update_status, hst]
    rw [if_pos h5]
    simp [SerialThread_send, h1, h2, h3]
    split <;> simp
  · intro now c st hst h5
    simp only [update_status, hst]
    rw [if_neg (by omega)]
    refine ⟨rfl, ?_⟩
    split
    · simp only [SerialThread_send]
      split
      · split <;> simp
      · simp
    · simp
  · intro c
    unfold send_key_command
    cases c.serial_thread <;> rfl

/-- Witness for C1's amended theorem at concrete states and times. -/
theorem update_status_failsafe_window_witness :
    ((update_status 12 (mkCentre (some ⟨true, true, false⟩) "N" 6 [] false)).1.last_cmd_time = 12 ∧
      (update_status 12 (mkCentre (some ⟨true, true, false⟩) "N" 6 [] false)).2.count "S" = 1) ∧
    ((update_status 8 (mkCentre (some ⟨true, true, false⟩) "N" 6 [] false)).1
        = mkCentre (some ⟨true, true, false⟩) "N" 6 [] false ∧
      "S" ∉ (update_status 8 (mkCentre (some ⟨true, true, false⟩) "N" 6 [] false)).2) ∧
    (send_key_command (mkCentre (some ⟨true, true, false⟩) "N" 6 ['F'] false)).1
      = mkCentre (some ⟨true, true, false⟩) "N" 6 ['F'] false :=
  ⟨update_status_failsafe_window.1 12 _ ⟨true, true, false⟩ rfl rfl rfl rfl (by decide),
   update_status_failsafe_window.2.1 8 _ ⟨true, true, false⟩ rfl (by decide),
   update_status_failsafe_window.2.2 _⟩

/-- Claim C2, counterexample.  `switch_mode('V')` on a connected session in
mode `N` changes the authoritative `current_mode` to `V` immediately upon
the successful send — no `Mode:V` acknowledgement is ever processed — so
the mode is not "exactly what it was before the request". -/
theorem switch_mode_optimistic_cex :
    (switch_mode (mkCentre (some ⟨true, true, false⟩) "N" 0 [] false) "V").1.current_mode = "V" ∧
    (switch_mode (mkCentre (some ⟨true, true, false⟩) "N" 0 [] false) "V").2 = ["V"] ∧
    ("V" : String) ≠ "N" := by decide

/-- Claim C2, amended.  `switch_mode` applies the requested mode
optimistically: when the transport send fails (no serial thread, handle
closed, or write error) the session state is unchanged, and when the send
succeeds `current_mode` becomes the requested mode immediately, without
waiting for any `Mode:<value>` acknowledgement. -/
theorem switch_mode_characterization (c : Centre) (mode : String) :
    ((centre_send c mode).1 = false → switch_mode c mode = (c, (centre_send c mode).2)) ∧
    ((centre_send c mode).1 = true → (switch_mode c mode).1.current_mode = mode) := by
  refine ⟨fun h => ?_, fun h => ?_⟩
  · rcases hcs : centre_send c mode with ⟨ok, w⟩
    rw [hcs] at h
    simp at h
    subst h
    simp [switch_mode, hcs]
  · rcases hcs : centre_send c mode with ⟨ok, w⟩
    rw [hcs] at h
    simp at h
    subst h
    simp only [switch_mode, hcs]
    split
    · rcases hcs2 : centre_send { c with current_mode := mode, voice_running := false } mode
        with ⟨ok2, w2⟩
      cases ok2 <;> simp
    · rfl

/-- Witness for C2's amended theorem: a failed send (no serial thread)
leaves the state unchanged; a successful send applies the mode. -/
theorem switch_mode_characterization_witness :
    switch_mode (mkCentre none "N" 0 [] false) "V"
      = (mkCentre none "N" 0 [] false, (centre_send (mkCentre none "N" 0 [] false) "V").2) ∧
    (switch_mode (mkCentre (some ⟨true, true, false⟩) "N" 0 [] false) "V").1.current_mode = "V" :=
  ⟨(switch_mode_characterization _ _).1 (by decide),
   (switch_mode_characterization _ _).2 (by decide)⟩

/-- Claim C3 (confirmed).  Whenever `current_mode` is not `N` — whatever
else it is — every key press and every key release is dropped by the
listener callbacks: the session state is unchanged and nothing reaches the
transport write, with no error raised (the callbacks return normally). -/
theorem key_events_gated_outside_normal (c : Centre) (k : Key)
    (h : c.current_mode ≠ "N") :
    on_press c k = (c, []) ∧ on_release c k = (c, []) := by
  unfold on_press on_release
  rw [if_pos (Or.inl h), if_pos (Or.inl h)]
  exact ⟨rfl, rfl⟩

/-- Witness for C3 in mode `V` on the Up-arrow key. -/
theorem key_events_gated_outside_normal_witness :
    on_press (mkCentre (some ⟨true, true, false⟩) "V" 0 [] false) Key.up
      = (mkCentre (some ⟨true, true, false⟩) "V" 0 [] false, []) ∧
    on_release (mkCentre (some ⟨true, true, false⟩) "V" 0 [] false) Key.up
      = (mkCentre (some ⟨true, true, false⟩) "V" 0 [] false, []) :=
  key_events_gated_outside_normal _ Key.up (by decide)

/-- Claim C4, counterexample.  Starting voice control (`toggle_voice`)
sends `V` and starts the voice thread but leaves `current_mode = "N"` (no
acknowledgement has arrived); the next recognized transcript "forward" is
then written to the transport as `F` while the current mode is `N`, not
Voice — refuting "in any other mode the voice-derived command is not
dispatched". -/
theorem voice_dispatch_ignores_mode_cex :
    (toggle_voice (mkCentre (some ⟨true, true, false⟩) "N" 0 [] false)).1.current_mode = "N" ∧
    (toggle_voice (mkCentre (some ⟨true, true, false⟩) "N" 0 [] false)).1.voice_running = true ∧
    (toggle_voice (mkCentre (some ⟨true, true, false⟩) "N" 0 [] false)).2 = ["V"] ∧
    voice_dispatch (toggle_voice (mkCentre (some ⟨true, true, false⟩) "N" 0 [] false)).1 "forward"
      = ["F"] ∧
    ("N" : String) ≠ "V" := by decide

/-- Claim C4, amended.  A recognized voice command is written to the
transport whenever the voice thread is running and the serial write
succeeds, for every value of `current_mode`: `VoiceThread.run` performs no
mode check, so voice-derived commands are gated by voice-thread liveness,
not by the authoritative mode. -/
theorem voice_dispatch_mode_independent (c : Centre) (st : SerialState)
    (text : String) (cmd : Char)
    (hv : c.voice_running = true) (hs : c.serial_thread = some st)
    (h1 : st.ser_some = true) (h2 : st.ser_open = true) (h3 : st.write_fails = false)
    (ht : voice_cmd_of text = some cmd) :
    voice_dispatch c text = [String.singleton cmd] := by
  simp [voice_dispatch, VoiceThread_step, SerialThread_send, hv, hs, h1, h2, h3, ht]

/-- Witness for C4's amended theorem: in Auto mode the transcript
"forward" is still dispatched as `F`. -/
theorem voice_dispatch_mode_independent_witness :
    voice_dispatch (mkCentre (some ⟨true, true, false⟩) "A" 0 [] true) "forward"
      = [String.singleton 'F'] :=
  voice_dispatch_mode_independent _ ⟨true, true, false⟩ "forward" 'F'
    rfl rfl rfl rfl rfl (by decide)

/-- Claim C5 (confirmed).  The arbiter's loop over
`priority_cmds = [F, B, L, R, P]` computes exactly the first held command
in the fixed priority order Forward > Backward > Left > Right > Pump, and
resolves to Stop when none is held (in particular on the empty set); as a
function of the held set it is deterministic by construction. -/
theorem effective_command_priority :
    (∀ keys, effective_command keys = effective_command_spec keys) ∧
    effective_command [] = 'S' :=
  ⟨fun _ => rfl, rfl⟩

/-- Claim C6, counterexample.  In mode `N` with `F` already held, a repeat
press of `w` leaves the held set unchanged but emits `F` on the command
stream again — `on_press` calls `send_key_command` unconditionally and
`send_key_command` has no change-detection — so the repeated press is not
a no-op on the emitted stream. -/
theorem repeated_press_reemits_cex :
    on_press (mkCentre (some ⟨true, true, false⟩) "N" 0 [] false) (Key.char 'w')
      = (mkCentre (some ⟨true, true, false⟩) "N" 0 ['F'] false, ["F"]) ∧
    on_press (mkCentre (some ⟨true, true, false⟩) "N" 0 ['F'] false) (Key.char 'w')
      = (mkCentre (some ⟨true, true, false⟩) "N" 0 ['F'] false, ["F"]) ∧
    (["F"] : List String) ≠ [] := by decide

/-- Claim C6, amended.  Pressing a key whose command is already held
leaves the session state unchanged (the set add is idempotent) but
re-emits the current effective command: emission happens on every accepted
press event, not only when the effective command changes. -/
theorem repeated_press_reemits (c : Centre) (st : SerialState) (k : Key) (cmd : Char)
    (hm : c.current_mode = "N") (hs : c.serial_thread = some st)
    (h1 : st.ser_some = true) (h2 : st.ser_open = true) (h3 : st.write_fails = false)
    (hk : key_to_cmd k = some cmd) (hheld : c.active_keys.contains cmd = true) :
    on_press c k = (c, [String.singleton (effective_command c.active_keys)]) := by
  unfold on_press
  rw [if_neg (by simp [hm, hs])]
  rw [hk]
  simp only [setAdd, hheld, if_pos]
  simp [send_key_command, hs, SerialThread_send, h1, h2, h3]
  rw [← hs]

/-- Witness for C6's amended theorem: repeat press of `w` with `F` held. -/
theorem repeated_press_reemits_witness :
    on_press (mkCentre (some ⟨true, true, false⟩) "N" 0 ['F'] false) (Key.char 'w')
      = (mkCentre (some ⟨true, true, false⟩) "N" 0 ['F'] false,
         [String.singleton (effective_command ['F'])]) :=
  repeated_press_reemits _ ⟨true, true, false⟩ (Key.char 'w') 'F'
    rfl rfl rfl rfl rfl (by decide) (by decide)

/-- Claim C7, counterexample.  The telemetry line `Mode:X` carries a value
outside {N, V, A}, yet `handle_serial_data` assigns it to `current_mode`:
the mode state changes from `N` to `X`, so the unknown ack is not
"otherwise ignored" with state unchanged. -/
theorem unknown_mode_ack_applied_cex :
    (handle_serial_data (mkCentre (some ⟨true, true, false⟩) "N" 0 [] false) "Mode:X").current_mode
      = "X" ∧
    ("X" : String) ≠ "N" := by decide

/-- Claim C7, amended.  Every non-error line containing `Mode:` — whatever
the value, known or unknown — is logged and has its parsed value assigned
to `current_mode`; no validity filter exists.  All other modelled session
state is unchanged (the update touches only `current_mode`). -/
theorem mode_ack_always_applied (c : Centre) (data : String)
    (hne : containsSub "Error" data = false) (hm : containsSub "Mode:" data = true) :
    handle_serial_data c data = { c with current_mode := pyStrip (colonPayload data) } := by
  simp [handle_serial_data, classify, hne, hm]

/-- Witness for C7's amended theorem on the unknown ack `Mode:X`. -/
theorem mode_ack_always_applied_witness :
    handle_serial_data (mkCentre (some ⟨true, true, false⟩) "N" 0 [] false) "Mode:X"
      = { mkCentre (some ⟨true, true, false⟩) "N" 0 [] false with
          current_mode := pyStrip (colonPayload "Mode:X") } :=
  mode_ack_always_applied _ "Mode:X" (by decide) (by decide)

/-- Claim C8, counterexample.  For the line `Soil:512` the displayed
moisture percent is `int((1023 - 512) / 1023 * 100) = int(49.95...) = 49`
— Python's `int` truncates — whereas the claim's rounding formula gives
50. -/
theorem soil_moisture_truncation_cex :
    (handle_serial_data (mkCentre (some ⟨true, true, false⟩) "N" 0 [] false) "Soil:512").moisture_tooltip
      = 49 ∧
    (49 : Int) ≠ 50 := by
  refine ⟨?_, by decide⟩
  have h : classify "Soil:512" = TelemetryEvent.soil (some 512) := by decide
  simp only [handle_serial_data, h]
  exact moisture_percent_512

/-- Claim C8, amended.  `Soil:512` parses to a soil reading of 512, and
for every soil value s ≤ 1023 the displayed moisture percent is the
truncation (floor) of (1023 - s)/1023*100 — natural division, not
rounding — which is 49 (not 50) at s = 512. -/
theorem moisture_percent_is_floor :
    classify "Soil:512" = TelemetryEvent.soil (some 512) ∧
    moisture_percent 512 = 49 ∧
    (∀ s : Nat, s ≤ 1023 →
      moisture_percent (s : Int) = ((((1023 - s) * 100) / 1023 : Nat) : Int)) :=
  ⟨by decide, moisture_percent_512, fun s h => moisture_percent_natCast s h⟩

/-- Witness for C8's amended theorem at s = 512. -/
theorem moisture_percent_is_floor_witness :
    (512 : Nat) ≤ 1023 ∧
    moisture_percent ((512 : Nat) : Int) = ((((1023 - 512) * 100) / 1023 : Nat) : Int) :=
  ⟨by decide, moisture_percent_is_floor.2.2 512 (by decide)⟩

/-- Claim C9 (confirmed).  Telemetry classification is ordered: a line
containing `Error` anywhere is an error notice (and tears the session
down) even when it also matches the other line shapes; a non-error line
containing `Mode:` anywhere — as a substring, not only a prefix, as the
concrete line `xMode:V` shows — is a mode ack; while `Soil:` and `Dist:`
classify their events only as line prefixes: a line not starting with them
never yields a soil or distance event, and `xSoil:512` falls through to a
raw line. -/
theorem telemetry_classification_order :
    (∀ data : String, containsSub "Error" data = true →
      classify data = TelemetryEvent.errorNotice data) ∧
    (∀ (c : Centre) (data : String), containsSub "Error" data = true →
      (handle_serial_data c data).serial_thread = none ∧
      (handle_serial_data c data).voice_running = false) ∧
    (∀ data : String, containsSub "Error" data = false → containsSub "Mode:" data = true →
      classify data = TelemetryEvent.modeAck (pyStrip (colonPayload data))) ∧
    classify "xMode:V" = TelemetryEvent.modeAck "V" ∧
    (∀ data : String, pyStartsWith data "Soil:" = false →
      ∀ p, classify data ≠ TelemetryEvent.soil p) ∧
    (∀ data : String, pyStartsWith data "Dist:" = false →
      ∀ t, classify data ≠ TelemetryEvent.dist t) ∧
    classify "Soil:3 Error" = TelemetryEvent.errorNotice "Soil:3 Error" ∧
    classify "xSoil:512" = TelemetryEvent.raw "xSoil:512" := by
  refine ⟨?_, ?_, ?_, by decide, ?_, ?_, by decide, by decide⟩
  · intro data h
    simp [classify, h]
  · intro c data h
    simp [handle_serial_data, classify, h, show_error, disconnect_serial]
  · intro data h1 h2
    simp [classify, h1, h2]
  · intro data h p
    simp only [classify]
    split_ifs <;> simp_all
  · intro data h t
    simp only [classify]
    split_ifs <;> simp_all

/-- Witness for C9 at concrete lines exercising each guarded conjunct. -/
theorem telemetry_classification_order_witness :
    classify "Mode:V Error" = TelemetryEvent.errorNotice "Mode:V Error" ∧
    (handle_serial_data (mkCentre (some ⟨true, true, false⟩) "N" 0 [] false)
        "GeneralError: sensor fault").serial_thread = none ∧
    (handle_serial_data (mkCentre (some ⟨true, true, false⟩) "N" 0 [] false)
        "GeneralError: sensor fault").voice_running = false ∧
    classify "Mode:A" = TelemetryEvent.modeAck (pyStrip (colonPayload "Mode:A")) ∧
    classify "xSoil:512" ≠ TelemetryEvent.soil (some 512) ∧
    classify "xDist:9" ≠ TelemetryEvent.dist "9" :=
  ⟨telemetry_classification_order.1 "Mode:V Error" (by decide),
   (telemetry_classification_order.2.1 _ "GeneralError: sensor fault" (by decide)).1,
   (telemetry_classification_order.2.1 _ "GeneralError: sensor fault" (by decide)).2,
   telemetry_classification_order.2.2.1 "Mode:A" (by decide) (by decide),
   telemetry_classification_order.2.2.2.2.1 "xSoil:512" (by decide) (some 512),
   telemetry_classification_order.2.2.2.2.2.1 "xDist:9" (by decide) "9"⟩

/-- Claim C10 (confirmed).  `SerialThread.send` returns `False` and writes
nothing when the serial handle is absent or not open (and reports no
error); when the handle is open but the write raises, the exception is
caught, reported through `error_occurred`, and `False` is returned — the
function is total, so a command submitted without an open connection is
silently dropped rather than raising. -/
theorem send_requires_open_handle (st : SerialState) (command : String) :
    (¬(st.ser_some = true ∧ st.ser_open = true) →
      SerialThread_send st command = ⟨false, [], false⟩) ∧
    (st.ser_some = true → st.ser_open = true → st.write_fails = true →
      SerialThread_send st command = ⟨false, [], true⟩) := by
  refine ⟨fun h => ?_, fun h1 h2 h3 => ?_⟩
  · have hb : (st.ser_some && st.ser_open) = false := by
      cases hs : st.ser_some <;> cases ho : st.ser_open <;> simp_all
    simp [SerialThread_send, hb]
  · simp [SerialThread_send, h1, h2, h3]

/-- Witness for C10: a closed-handle send and a failing write, both on the
command `F`. -/
theorem send_requires_open_handle_witness :
    SerialThread_send ⟨false, true, false⟩ "F" = ⟨false, [], false⟩ ∧
    SerialThread_send ⟨true, true, true⟩ "F" = ⟨false, [], true⟩ :=
  ⟨(send_requires_open_handle ⟨false, true, false⟩ "F").1 (by decide),
   (send_requires_open_handle ⟨true, true, true⟩ "F").2 (by decide) (by decide) (by decide)⟩
